import Mathlib

/-!
Shallow embedding of the honyaku_assist translation front end
(src/honyaku_assist/utils.py and src/honyaku_assist/views.py).

The external DeepL and Google SDK calls are modelled by oracles describing
the outcome of each remote call (success value, or a raised exception).
Python exceptions are modelled by an `Exc` type that distinguishes
`DeepLException` from every other exception class, because the two
`except` clauses of the source discriminate on exactly that.
The Django `Engine` model row for the Google provider is the record
`Engine` below; `timezone.now()` is modelled by an explicit `Date`
argument.  Fallible adapters return `Except Exc _`: an `Except.error`
value is an exception that escaped the adapter.
-/

/-- Current month/year pair, standing for `timezone.now().month/.year`. -/
structure Date where
  month : Nat
  year : Nat
deriving DecidableEq, Repr

/-- The persisted `Engine` row for the Google provider
(fields `current_usage`, `month_usage_last_reset`, `year_usage_last_reset`).
`current_usage` is an `Int` because the Django field is a plain integer. -/
structure Engine where
  current_usage : Int
  month_usage_last_reset : Nat
  year_usage_last_reset : Nat
deriving DecidableEq, Repr

/-- `translation_direction` from utils.py (identical copy in views.py):
`"Ja>En"` maps to `("ja", "en-us")`, everything else to `("en", "ja")`. -/
def translation_direction (direction : String) : String × String :=
  if direction = "Ja>En" then ("ja", "en-us") else ("en", "ja")

/-- `get_google_usage` from utils.py.  Compares the stored last-reset
(month, year) pair with the current date; on mismatch it resets the usage
to the length of the submitted text and stamps the current date, otherwise
it adds the length to the stored usage.  Returns the saved row together
with the returned `current_usage` value. -/
def get_google_usage (now : Date) (google_engine : Engine) (source_text : String) :
    Engine × Int :=
  let current_date := (now.month, now.year)
  let last_reset_date :=
    (google_engine.month_usage_last_reset, google_engine.year_usage_last_reset)
  if last_reset_date ≠ current_date then
    let e : Engine :=
      { current_usage := (source_text.length : Int),
        month_usage_last_reset := current_date.1,
        year_usage_last_reset := current_date.2 }
    (e, e.current_usage)
  else
    let e : Engine :=
      { google_engine with
        current_usage := google_engine.current_usage + (source_text.length : Int) }
    (e, e.current_usage)

/-- A Python exception: either a `deepl.exceptions.DeepLException`
(with its message) or an exception of any other class. -/
inductive Exc where
  | deepL (msg : String)
  | other (msg : String)
deriving DecidableEq, Repr

/-- Outcome of one remote SDK call: a returned value or a raised exception. -/
inductive CallResult (α : Type) where
  | ok (a : α)
  | raise (e : Exc)
deriving DecidableEq, Repr

/-- Oracle for the three DeepL SDK calls made by `call_deepl_api`:
constructing the `Translator`, `translate_text`, and `get_usage`. -/
structure DeepLOracle where
  auth : CallResult Unit
  translate : CallResult String
  getUsage : CallResult Int
deriving DecidableEq, Repr

/-- A value that is either a string or an integer: the `result` and `usage`
variables of the Python adapters hold both kinds. -/
inductive StrOrInt where
  | str (s : String)
  | int (n : Int)
deriving DecidableEq, Repr

/-- `call_deepl_api` from utils.py.  Three separate try/except blocks, each
catching only `DeepLException` and returning a placeholder early; any other
exception escapes the function (modelled as `Except.error`). -/
def call_deepl_api (o : DeepLOracle) : Except Exc (StrOrInt × StrOrInt) :=
  match o.auth with
  | .raise (.deepL m) =>
      .ok (.str ("(DeepL authentication error: " ++ m ++ ")"), .str "(Unknown)")
  | .raise e => .error e
  | .ok _ =>
    match o.translate with
    | .raise (.deepL m) =>
        .ok (.str ("(DeepL translation error: " ++ m ++ ")"), .str "(Unknown)")
    | .raise e => .error e
    | .ok t =>
      match o.getUsage with
      | .raise (.deepL m) =>
          .ok (.str t, .str ("(DeepL usage error: " ++ m ++ ")"))
      | .raise e => .error e
      | .ok u => .ok (.str t, .int u)

/-- Outcome of the Google `translate_text` request block in
`call_google_api_v3`: a response whose first translation is non-empty, a
response with an empty/absent translation, or a raised exception (the
surrounding `except Exception` catches every exception class). -/
inductive GoogleOutcome where
  | ok (translated : String)
  | emptyTranslation
  | raise (msg : String)
deriving DecidableEq, Repr

/-- `call_google_api_v3` from utils.py.  The whole authenticate/translate
block sits in one `try` with `except Exception`, so every failure becomes a
placeholder string; `get_google_usage` is then called unconditionally,
outside the `try`, before returning `(result, usage)`. -/
def call_google_api_v3 (o : GoogleOutcome) (now : Date) (engine : Engine)
    (source_text : String) : (String × Int) × Engine :=
  let result :=
    match o with
    | .ok t => t
    | .emptyTranslation => "(Error: Translation not included in response from Google)"
    | .raise m => "(Error: " ++ m ++ ")"
  let su := get_google_usage now engine source_text
  ((result, su.2), su.1)

/-- Predicate on one oracle slot: if the call raised, the exception was a
`DeepLException` (the class the utils.py handlers catch). -/
def raisedIsDeepL : CallResult α → Bool
  | .ok _ => true
  | .raise (.deepL _) => true
  | .raise (.other _) => false

/-- The handler bodies of the single try/except in views.py's
`call_deepl_api`: `result` is `None` while no translation has been obtained
(the Python variable holds the falsy `""` until `translate_text` returns a
truthy object).  A `DeepLException` appends `"\n(DeepL Error: ...)"`, any
other exception appends `"(Error: ...)"` without the newline; the usage
slot, still falsy at that point, becomes `"(Error)"`. -/
def views_deepl_handler (result : Option String) (e : Exc) : String × StrOrInt :=
  match e with
  | .deepL m =>
    match result with
    | some r => (r ++ "\n(DeepL Error: " ++ m ++ ")", .str "(Error)")
    | none => ("(DeepL Error: " ++ m ++ ")", .str "(Error)")
  | .other m =>
    match result with
    | some r => (r ++ "(Error: " ++ m ++ ")", .str "(Error)")
    | none => ("(Error: " ++ m ++ ")", .str "(Error)")

/-- `call_deepl_api` from views.py: one try block covering authentication,
translation and the usage query, with `except DeepLException` and
`except Exception` handlers, so no exception escapes. -/
def views_call_deepl_api (o : DeepLOracle) : String × StrOrInt :=
  match o.auth with
  | .raise e => views_deepl_handler none e
  | .ok _ =>
    match o.translate with
    | .raise e => views_deepl_handler none e
    | .ok t =>
      match o.getUsage with
      | .raise e => views_deepl_handler (some t) e
      | .ok u => (t, .int u)

/-- `call_google_api_v3` from views.py: same translate block as the utils.py
version but it returns only the result string and touches no usage state. -/
def views_call_google_api_v3 (o : GoogleOutcome) : String :=
  match o with
  | .ok t => t
  | .emptyTranslation => "(Error: Translation not included in response from Google)"
  | .raise m => "(Error: " ++ m ++ ")"

/-- HTTP request method, the only two the view distinguishes. -/
inductive Method where
  | get
  | post
deriving DecidableEq, Repr

/-- An incoming request to `homepage_view`: its method and the submitted
form fields; `formValid` is the outcome of `form.is_valid()`. -/
structure HttpRequest where
  method : Method
  formValid : Bool
  direction : String
  source_text : String
deriving DecidableEq, Repr

/-- The template context built by `homepage_view` on a valid POST. -/
structure OutputContext where
  source_text : String
  source_text_length : Nat
  source_lang : String
  target_lang : String
  deepl_result : String
  deepl_result_length : Nat
  deepl_usage : StrOrInt
  google_result : String
  google_result_length : Nat
deriving DecidableEq, Repr

/-- A rendered Django response: `render` always produces status 200. -/
structure HttpResponse where
  status_code : Nat
  template : String
  context : Option OutputContext
deriving DecidableEq, Repr

/-- Django's `render` shortcut: a 200 response with the given template. -/
def render (template : String) (context : Option OutputContext) : HttpResponse :=
  { status_code := 200, template := template, context := context }

/-- `homepage_view` from views.py.  POST with a valid form resolves the
direction, calls both adapters (the views.py versions defined in the same
file) and renders output.html; GET, and POST with an invalid form, render
input.html with an empty/bound form. -/
def homepage_view (req : HttpRequest) (deepl : DeepLOracle) (google : GoogleOutcome) :
    HttpResponse :=
  match req.method with
  | .post =>
    if req.formValid then
      let langs := translation_direction req.direction
      let dr := views_call_deepl_api deepl
      let gr := views_call_google_api_v3 google
      render "output.html" (some
        { source_text := req.source_text,
          source_text_length := req.source_text.length,
          source_lang := langs.1,
          target_lang := langs.2,
          deepl_result := dr.1,
          deepl_result_length := dr.1.length,
          deepl_usage := dr.2,
          google_result := gr,
          google_result_length := gr.length })
    else
      render "input.html" none
  | .get => render "input.html" none

/-- Whether a `get_google_usage` call on engine state `e` at date `now`
takes the reset branch (stored last-reset date differs from `now`). -/
def takesResetBranch (e : Engine) (now : Date) : Bool :=
  decide ((e.month_usage_last_reset, e.year_usage_last_reset) ≠ (now.month, now.year))

/-- The branch taken by each successive `get_google_usage` call when the
texts `ts` are submitted one after another at the fixed date `d`. -/
def runFlags (d : Date) (e : Engine) : List String → List Bool
  | [] => []
  | t :: ts => takesResetBranch e d :: runFlags d (get_google_usage d e t).1 ts

/-- Ghost-instrumented tracker step: runs `get_google_usage` and also
maintains the list of texts submitted since the last recorded reset
(restarted at `[t]` when the reset branch fires). -/
def trackerStep (s : List String × Engine) (op : Date × String) : List String × Engine :=
  let e2 := (get_google_usage op.1 s.2 op.2).1
  if (s.2.month_usage_last_reset, s.2.year_usage_last_reset) ≠ (op.1.month, op.1.year) then
    ([op.2], e2)
  else
    (s.1 ++ [op.2], e2)

/-- A sequence of tracker operations applied in order. -/
def trackerRun (init : List String × Engine) (ops : List (Date × String)) :
    List String × Engine :=
  ops.foldl trackerStep init

/-- The invariant of the engine usage record: the stored usage equals the
total character length of the texts submitted since the last recorded
reset. -/
def googleUsageInv (texts : List String) (e : Engine) : Prop :=
  e.current_usage = (((texts.map String.length).sum : Nat) : Int)

instance (texts : List String) (e : Engine) : Decidable (googleUsageInv texts e) := by
  unfold googleUsageInv
  infer_instance

/-- A fifty-character source text, for the worked example in the spec. -/
def fiftyChars : String := String.mk (List.replicate 50 'a')

/-- After any `get_google_usage` call the stored last-reset date equals the
current date: the reset branch stamps it and the additive branch already
has it. -/
lemma get_google_usage_stamps_date (now : Date) (e : Engine) (t : String) :
    (get_google_usage now e t).1.month_usage_last_reset = now.month ∧
    (get_google_usage now e t).1.year_usage_last_reset = now.year := by
  unfold get_google_usage
  by_cases h : (e.month_usage_last_reset, e.year_usage_last_reset) ≠ (now.month, now.year)
  · simp [h]
  · simp only [ne_eq, not_not] at h
    have h1 : e.month_usage_last_reset = now.month := congrArg Prod.fst h
    have h2 : e.year_usage_last_reset = now.year := congrArg Prod.snd h
    simp [h, h1, h2]

/-- When the stored date already matches, `get_google_usage` takes the
additive branch. -/
lemma get_google_usage_of_eq (now : Date) (e : Engine) (t : String)
    (h : (e.month_usage_last_reset, e.year_usage_last_reset) = (now.month, now.year)) :
    get_google_usage now e t =
      ({ e with current_usage := e.current_usage + (t.length : Int) },
       e.current_usage + (t.length : Int)) := by
  unfold get_google_usage
  simp [h]

/-- When the stored date differs, `get_google_usage` takes the reset
branch. -/
lemma get_google_usage_of_ne (now : Date) (e : Engine) (t : String)
    (h : (e.month_usage_last_reset, e.year_usage_last_reset) ≠ (now.month, now.year)) :
    get_google_usage now e t =
      (⟨(t.length : Int), now.month, now.year⟩, (t.length : Int)) := by
  unfold get_google_usage
  simp [h]

/-- C1: if the stored last-reset (month, year) differs from the current
(month, year), `get_google_usage` sets the stored usage to the length of
the submitted text, stamps the current month and year, and returns that
length. -/
theorem get_google_usage_reset (now : Date) (e : Engine) (t : String)
    (h : (e.month_usage_last_reset, e.year_usage_last_reset) ≠ (now.month, now.year)) :
    (get_google_usage now e t).1 = ⟨(t.length : Int), now.month, now.year⟩ ∧
    (get_google_usage now e t).2 = (t.length : Int) := by
  rw [get_google_usage_of_ne now e t h]
  exact ⟨rfl, rfl⟩

/-- Witness for C1, the spec's worked example: last reset (3, 2023),
current date (4, 2023), new text of 50 characters; the result is 50 and
the stored reset becomes (4, 2023). -/
theorem get_google_usage_reset_witness :
    ((3 : Nat), (2023 : Nat)) ≠ ((4 : Nat), (2023 : Nat)) ∧ fiftyChars.length = 50 ∧
    (get_google_usage ⟨4, 2023⟩ ⟨1234, 3, 2023⟩ fiftyChars).1 = ⟨50, 4, 2023⟩ ∧
    (get_google_usage ⟨4, 2023⟩ ⟨1234, 3, 2023⟩ fiftyChars).2 = 50 := by
  refine ⟨by decide, by decide, ?_⟩
  have h := get_google_usage_reset ⟨4, 2023⟩ ⟨1234, 3, 2023⟩ fiftyChars (by decide)
  have h50 : ((fiftyChars.length : Nat) : Int) = 50 := by decide
  rw [h50] at h
  exact h

/-- C2: if the stored last-reset (month, year) equals the current
(month, year), `get_google_usage` adds the length of the submitted text to
the stored usage, leaves the stored date unchanged, and returns the stored
usage after the operation. -/
theorem get_google_usage_accumulate (now : Date) (e : Engine) (t : String)
    (h : (e.month_usage_last_reset, e.year_usage_last_reset) = (now.month, now.year)) :
    (get_google_usage now e t).1 =
      { e with current_usage := e.current_usage + (t.length : Int) } ∧
    (get_google_usage now e t).2 = (get_google_usage now e t).1.current_usage := by
  rw [get_google_usage_of_eq now e t h]
  exact ⟨rfl, rfl⟩

/-- Witness for C2: same month (4, 2023), stored usage 100, text of 5
characters; the stored usage becomes 105 and is returned. -/
theorem get_google_usage_accumulate_witness :
    ((4 : Nat), (2023 : Nat)) = ((4 : Nat), (2023 : Nat)) ∧
    (get_google_usage ⟨4, 2023⟩ ⟨100, 4, 2023⟩ "hello").1 =
      { current_usage := 100 + ("hello".length : Int),
        month_usage_last_reset := 4, year_usage_last_reset := 2023 } ∧
    (get_google_usage ⟨4, 2023⟩ ⟨100, 4, 2023⟩ "hello").2 =
      (get_google_usage ⟨4, 2023⟩ ⟨100, 4, 2023⟩ "hello").1.current_usage := by
  refine ⟨rfl, ?_⟩
  exact get_google_usage_accumulate ⟨4, 2023⟩ ⟨100, 4, 2023⟩ "hello" rfl

/-- C3: the direction resolver maps the Japanese-to-English label
`"Ja>En"` to the pair `("ja", "en-us")`. -/
theorem translation_direction_ja_en :
    translation_direction "Ja>En" = ("ja", "en-us") := rfl

/-- C4: every label other than `"Ja>En"` resolves to the default pair
`("en", "ja")`; the resolver is a total function, so no input raises an
error. -/
theorem translation_direction_default (d : String) (h : d ≠ "Ja>En") :
    translation_direction d = ("en", "ja") := by
  simp [translation_direction, h]

/-- Witness for C4 at the English-to-Japanese label `"En>Ja"`. -/
theorem translation_direction_default_witness :
    "En>Ja" ≠ "Ja>En" ∧ translation_direction "En>Ja" = ("en", "ja") :=
  ⟨by decide, translation_direction_default "En>Ja" (by decide)⟩

/-- C5 counterexample: a request whose Google translation call fails
(exception raised, caught, placeholder produced) still mutates the usage
record: with stored state (100, 3, 2023), current date (4, 2023) and text
"hello", the stored engine row changes. -/
theorem call_google_failure_mutates_cx :
    (call_google_api_v3 (.raise "auth failed") ⟨4, 2023⟩ ⟨100, 3, 2023⟩ "hello").2 ≠
      (⟨100, 3, 2023⟩ : Engine) := by decide

/-- C5 amended: `call_google_api_v3` calls `get_google_usage` outside its
try block, so even a failed translation request mutates the usage record;
in particular, when the stored last-reset date differs from the current
date, a failing request resets the stored usage to the length of the
submitted text, stamps the current date, and returns the placeholder
string paired with that length. -/
theorem call_google_failure_still_mutates (msg : String) (now : Date) (e : Engine)
    (t : String)
    (h : (e.month_usage_last_reset, e.year_usage_last_reset) ≠ (now.month, now.year)) :
    (call_google_api_v3 (.raise msg) now e t).2 = ⟨(t.length : Int), now.month, now.year⟩ ∧
    (call_google_api_v3 (.raise msg) now e t).1 =
      ("(Error: " ++ msg ++ ")", (t.length : Int)) := by
  simp [call_google_api_v3, get_google_usage_of_ne now e t h]

/-- Witness for amended C5: failing request at (4, 2023) against stored
(100, 3, 2023) with text "hello". -/
theorem call_google_failure_still_mutates_witness :
    ((3 : Nat), (2023 : Nat)) ≠ ((4 : Nat), (2023 : Nat)) ∧
    (call_google_api_v3 (.raise "auth failed") ⟨4, 2023⟩ ⟨100, 3, 2023⟩ "hello").2 =
      ⟨("hello".length : Int), 4, 2023⟩ ∧
    (call_google_api_v3 (.raise "auth failed") ⟨4, 2023⟩ ⟨100, 3, 2023⟩ "hello").1 =
      ("(Error: " ++ "auth failed" ++ ")", ("hello".length : Int)) :=
  ⟨by decide,
   call_google_failure_still_mutates "auth failed" ⟨4, 2023⟩ ⟨100, 3, 2023⟩ "hello" (by decide)⟩

/-- One tracker step preserves the usage invariant: the reset branch
restarts the ghost log at the single new text, the additive branch appends
it, and in both branches the stored usage equals the log's total length. -/
lemma trackerStep_inv (s : List String × Engine) (op : Date × String)
    (h : googleUsageInv s.1 s.2) :
    googleUsageInv (trackerStep s op).1 (trackerStep s op).2 := by
  unfold trackerStep
  by_cases hd :
      (s.2.month_usage_last_reset, s.2.year_usage_last_reset) ≠ (op.1.month, op.1.year)
  · simp [hd, googleUsageInv, get_google_usage_of_ne op.1 s.2 op.2 hd]
  · simp only [ne_eq, not_not] at hd
    unfold googleUsageInv at h
    simp [hd, googleUsageInv, get_google_usage_of_eq op.1 s.2 op.2 hd, h,
      List.sum_append]

/-- Every run of tracker operations preserves the usage invariant. -/
lemma trackerRun_inv (ops : List (Date × String)) (s : List String × Engine)
    (h : googleUsageInv s.1 s.2) :
    googleUsageInv (trackerRun s ops).1 (trackerRun s ops).2 := by
  induction ops generalizing s with
  | nil => exact h
  | cons op ops ih => exact ih (trackerStep s op) (trackerStep_inv s op h)

/-- C6: starting from any state satisfying the usage invariant, after any
sequence of tracker operations the stored usage equals the total character
length of the texts submitted since the last recorded reset, and is
non-negative; every `get_google_usage` call preserves the invariant. -/
theorem google_usage_invariant (texts : List String) (e : Engine)
    (ops : List (Date × String)) (h : googleUsageInv texts e) :
    googleUsageInv (trackerRun (texts, e) ops).1 (trackerRun (texts, e) ops).2 ∧
    0 ≤ (trackerRun (texts, e) ops).2.current_usage := by
  have hi := trackerRun_inv ops (texts, e) h
  refine ⟨hi, ?_⟩
  have hi2 := hi
  unfold googleUsageInv at hi2
  rw [hi2]
  exact Int.natCast_nonneg _

/-- Witness for C6: start at log ["ab"], usage 2, last reset (3, 2023);
submit "xyz" in (3, 2023) and "q" in (4, 2023). -/
theorem google_usage_invariant_witness :
    googleUsageInv ["ab"] ⟨2, 3, 2023⟩ ∧
    (googleUsageInv
        (trackerRun (["ab"], ⟨2, 3, 2023⟩) [(⟨3, 2023⟩, "xyz"), (⟨4, 2023⟩, "q")]).1
        (trackerRun (["ab"], ⟨2, 3, 2023⟩) [(⟨3, 2023⟩, "xyz"), (⟨4, 2023⟩, "q")]).2 ∧
      0 ≤ (trackerRun (["ab"], ⟨2, 3, 2023⟩)
            [(⟨3, 2023⟩, "xyz"), (⟨4, 2023⟩, "q")]).2.current_usage) :=
  ⟨by decide,
   google_usage_invariant ["ab"] ⟨2, 3, 2023⟩ [(⟨3, 2023⟩, "xyz"), (⟨4, 2023⟩, "q")]
     (by decide)⟩

/-- Once the stored last-reset date matches the current date, every further
call in that month takes the additive branch: all flags are `false`. -/
lemma runFlags_of_dateEq (d : Date) (ts : List String) :
    ∀ e : Engine,
      (e.month_usage_last_reset, e.year_usage_last_reset) = (d.month, d.year) →
      runFlags d e ts = List.replicate ts.length false := by
  induction ts with
  | nil => intro e _; rfl
  | cons t ts ih =>
    intro e h
    have hb : takesResetBranch e d = false := by
      simp [takesResetBranch, h]
    have hstamp := get_google_usage_stamps_date d e t
    have hnext := ih (get_google_usage d e t).1 (by rw [hstamp.1, hstamp.2])
    simp [runFlags, hb, hnext, List.replicate_succ]

/-- C7: when a nonempty sequence of texts is submitted at one fixed
calendar date, only the first `get_google_usage` call can take the reset
branch (it does so exactly when the stored date differs); every subsequent
call takes the additive branch, so the reset branch fires at most once in
the month. -/
theorem google_usage_reset_once_per_month (d : Date) (e : Engine) (t : String)
    (ts : List String) :
    runFlags d e (t :: ts) = takesResetBranch e d :: List.replicate ts.length false ∧
    (runFlags d e (t :: ts)).count true ≤ 1 := by
  have hstamp := get_google_usage_stamps_date d e t
  have h1 : runFlags d (get_google_usage d e t).1 ts = List.replicate ts.length false :=
    runFlags_of_dateEq d ts (get_google_usage d e t).1 (by rw [hstamp.1, hstamp.2])
  have hshape : runFlags d e (t :: ts) =
      takesResetBranch e d :: List.replicate ts.length false := by
    simp [runFlags, h1]
  refine ⟨hshape, ?_⟩
  rw [hshape]
  cases hb : takesResetBranch e d <;>
    simp [List.count_cons, List.count_replicate]

/-- C8 counterexample: utils.py's `call_deepl_api` catches only
`DeepLException`; an exception of any other class raised by the
translation call propagates out of the adapter instead of being converted
to a placeholder string. -/
theorem call_deepl_api_propagates_cx :
    call_deepl_api ⟨.ok (), .raise (.other "connection reset"), .ok 0⟩ =
      .error (.other "connection reset") := rfl

/-- C8 amended: every `DeepLException` raised by a DeepL SDK call inside
utils.py's `call_deepl_api` is caught and converted into the corresponding
human-readable placeholder string returned in place of the result — the
authentication, translation and usage branches producing
`"(DeepL authentication error: ...)"`, `"(DeepL translation error: ...)"`
and `"(DeepL usage error: ...)"` respectively — so the adapter returns
normally whenever only `DeepLException`s are raised; and any exception
raised inside `call_google_api_v3`'s translate block is caught and
converted to the `"(Error: ...)"` placeholder.  Exceptions that are not
`DeepLException`s are not caught by utils.py's `call_deepl_api`. -/
theorem adapters_catch_handled_exceptions :
    (∀ (m : String) (tr : CallResult String) (u : CallResult Int),
        call_deepl_api ⟨.raise (.deepL m), tr, u⟩ =
          .ok (.str ("(DeepL authentication error: " ++ m ++ ")"), .str "(Unknown)")) ∧
    (∀ (m : String) (u : CallResult Int),
        call_deepl_api ⟨.ok (), .raise (.deepL m), u⟩ =
          .ok (.str ("(DeepL translation error: " ++ m ++ ")"), .str "(Unknown)")) ∧
    (∀ t m : String,
        call_deepl_api ⟨.ok (), .ok t, .raise (.deepL m)⟩ =
          .ok (.str t, .str ("(DeepL usage error: " ++ m ++ ")"))) ∧
    (∀ o : DeepLOracle, raisedIsDeepL o.auth = true → raisedIsDeepL o.translate = true →
        raisedIsDeepL o.getUsage = true → ∃ p, call_deepl_api o = .ok p) ∧
    (∀ (msg : String) (now : Date) (e : Engine) (t : String),
        (call_google_api_v3 (.raise msg) now e t).1.1 = "(Error: " ++ msg ++ ")") := by
  refine ⟨fun m tr u => rfl, fun m u => rfl, fun t m => rfl, ?_, fun msg now e t => rfl⟩
  intro o ha ht hu
  obtain ⟨a, tr, u⟩ := o
  cases a with
  | raise ea =>
    cases ea with
    | deepL m => exact ⟨_, rfl⟩
    | other m => simp [raisedIsDeepL] at ha
  | ok _ =>
    cases tr with
    | raise et =>
      cases et with
      | deepL m => exact ⟨_, rfl⟩
      | other m => simp [raisedIsDeepL] at ht
    | ok t =>
      cases u with
      | raise eu =>
        cases eu with
        | deepL m => exact ⟨_, rfl⟩
        | other m => simp [raisedIsDeepL] at hu
      | ok n => exact ⟨_, rfl⟩

/-- Witness for amended C8: a quota `DeepLException` during translation is
converted to the `"(DeepL translation error: ...)"` placeholder and the
adapter returns normally, and a network failure inside the Google
translate block becomes the `"(Error: ...)"` placeholder string. -/
theorem adapters_catch_handled_exceptions_witness :
    call_deepl_api ⟨.ok (), .raise (.deepL "quota exceeded"), .ok 0⟩ =
      .ok (.str ("(DeepL translation error: " ++ "quota exceeded" ++ ")"),
        .str "(Unknown)") ∧
    (∃ p, call_deepl_api ⟨.ok (), .raise (.deepL "quota exceeded"), .ok 0⟩ = .ok p) ∧
    (call_google_api_v3 (.raise "network down") ⟨4, 2023⟩ ⟨0, 4, 2023⟩ "hi").1.1 =
      "(Error: " ++ "network down" ++ ")" :=
  ⟨adapters_catch_handled_exceptions.2.1 "quota exceeded" (.ok 0),
   adapters_catch_handled_exceptions.2.2.2.1
     ⟨.ok (), .raise (.deepL "quota exceeded"), .ok 0⟩ rfl rfl rfl,
   adapters_catch_handled_exceptions.2.2.2.2 "network down" ⟨4, 2023⟩ ⟨0, 4, 2023⟩ "hi"⟩

/-- C9: `homepage_view` answers with status 200 in every case; a GET
renders input.html (the empty form) and a POST whose form validates
renders output.html (the translation results). -/
theorem homepage_view_ok (req : HttpRequest) (o : DeepLOracle) (g : GoogleOutcome) :
    (homepage_view req o g).status_code = 200 ∧
    (req.method = .get → (homepage_view req o g).template = "input.html") ∧
    (req.method = .post → req.formValid = true →
      (homepage_view req o g).template = "output.html") := by
  obtain ⟨m, v, d, s⟩ := req
  cases m with
  | get =>
    refine ⟨rfl, fun _ => rfl, fun h _ => ?_⟩
    exact Method.noConfusion h
  | post =>
    cases v with
    | true => exact ⟨rfl, fun h => Method.noConfusion h, fun _ _ => rfl⟩
    | false =>
      refine ⟨rfl, fun h => Method.noConfusion h, fun _ hv => ?_⟩
      exact Bool.noConfusion hv

/-- Witness for C9: a concrete GET request renders input.html with
status 200, and a concrete valid POST renders output.html with
status 200. -/
theorem homepage_view_ok_witness :
    ((homepage_view ⟨.get, false, "", ""⟩ ⟨.ok (), .ok "hola", .ok 10⟩
        (.ok "hiya")).status_code = 200 ∧
      (homepage_view ⟨.get, false, "", ""⟩ ⟨.ok (), .ok "hola", .ok 10⟩
        (.ok "hiya")).template = "input.html") ∧
    ((homepage_view ⟨.post, true, "Ja>En", "abc"⟩ ⟨.ok (), .ok "hola", .ok 10⟩
        (.ok "hiya")).status_code = 200 ∧
      (homepage_view ⟨.post, true, "Ja>En", "abc"⟩ ⟨.ok (), .ok "hola", .ok 10⟩
        (.ok "hiya")).template = "output.html") := by
  have h1 := homepage_view_ok ⟨.get, false, "", ""⟩ ⟨.ok (), .ok "hola", .ok 10⟩ (.ok "hiya")
  have h2 := homepage_view_ok ⟨.post, true, "Ja>En", "abc"⟩ ⟨.ok (), .ok "hola", .ok 10⟩
    (.ok "hiya")
  exact ⟨⟨h1.1, h1.2.1 rfl⟩, ⟨h2.1, h2.2.2 rfl rfl⟩⟩

/-- C10: in utils.py's `call_deepl_api`, when translation succeeds but the
usage query raises a `DeepLException`, the function still returns the
obtained translation unchanged, paired with the usage-error placeholder
string. -/
theorem call_deepl_usage_error_partial (t m : String) :
    call_deepl_api ⟨.ok (), .ok t, .raise (.deepL m)⟩ =
      .ok (.str t, .str ("(DeepL usage error: " ++ m ++ ")")) := rfl
